import Mathlib

/-!
Shallow embedding of the multi-stage translation pipeline of
Lynkes/RPGMAKER-.json-TRANSLATOR, file src/ollama_script.py.

The pipeline keeps three JSON-backed caches (Google, Refined, QA), each a
mapping key -> lang -> slot.  The functions below embed, per (key, lang)
slot, the loop bodies of process_google_file (lines 150-175),
process_refine_file (lines 181-209), process_qa_file (lines 215-309),
export_final (lines 315-334), save_edit of the manual-review window
(lines 470-504), and the cache loader load_json (lines 77-81).

LLM and Google-Translate replies are uninterpreted input strings (or
Except values when the call can raise); Python str.strip() is modelled by
pyStrip and str.upper() by pyUpper below; a Python dict .get with a
default is modelled by Option plus getD.
-/

namespace RPGTranslator

/-- One (key, lang) slot of the QA cache: the fields the code reads with
qa_cache[key].get(lang, {}).get(...): "status", "translation" (absent
fields read as None, modelled as Option.none) and "attempts"
(read with default 0). -/
structure QASlot where
  status : Option String
  translation : Option String
  attempts : Nat
deriving DecidableEq, Repr

/-- A fresh QA slot, as produced by qa_cache[key].get(lang, {}) on a
missing lang key: no status, no translation, attempts default 0. -/
def emptyQASlot : QASlot := ⟨none, none, 0⟩

/-- One (key, lang) slot of the Refined cache: fields "google", "refined"
(read with block.get(..., "") or truthiness tests, modelled as Option),
"attempts" (default 0) and "qa_status". -/
structure RefinedSlot where
  google : Option String
  refined : Option String
  attempts : Nat
  qaStatus : Option String
deriving DecidableEq, Repr

/-- Python str.strip(): remove leading and trailing whitespace.  (List
based rather than Substring based so that concrete slots evaluate inside
the kernel.) -/
def pyStrip (s : String) : String :=
  ⟨((s.data.dropWhile Char.isWhitespace).reverse.dropWhile Char.isWhitespace).reverse⟩

/-- Python str.upper() on the ASCII range. -/
def pyUpper (s : String) : String :=
  ⟨s.data.map Char.toUpper⟩

/-- The test qa_out.strip().upper() == "OK" of lines 241 and 287. -/
def okReply (s : String) : Bool := pyUpper (pyStrip s) == "OK"

/-- Result of processing one (key, lang) slot in process_qa_file:
the final QA-cache slot, the final Refined-cache slot, whether the slot
was skipped by the line-229 guard, the successive states the QA-cache
slot is assigned (in mutation order: the line-252/253 block together with
the immediately following status/translation assignments forms one
recorded state; the retry or exhaustion outcome forms the next), and the
"status" fields of the audit-log records appended for this slot. -/
structure QAStepResult where
  qa : QASlot
  refinedSlot : RefinedSlot
  skipped : Bool
  trace : List QASlot
  log : List String
deriving DecidableEq, Repr

/-- The body of the per-(key, lang) loop of process_qa_file
(src/ollama_script.py lines 224-308) for one slot.

qa0 is the slot read from the QA cache, block the slot read from the
Refined cache; reply1 is the string the first llama_call produces
(line 236; a raised exception yields the "[Llama QA ERROR: ...]" string,
subsumed by reply1 being arbitrary), reply2 the string of the retry call
(line 284).  maxAttempts models the max_attempts parameter (default
MAX_QA_ATTEMPTS = 3), retryOnFail the retry_on_fail parameter. -/
def qaStep (qa0 : QASlot) (block : RefinedSlot) (reply1 reply2 : String)
    (retryOnFail : Bool) (maxAttempts : Nat) : QAStepResult :=
  let refined := block.refined.getD ""
  let attempts := qa0.attempts
  -- line 229: if status == "OK" and qa_cache[key][lang].get("translation") == refined: skip
  if qa0.status = some "OK" ∧ qa0.translation = some refined then
    { qa := qa0, refinedSlot := block, skipped := true, trace := [], log := [] }
  else if okReply reply1 then
    -- lines 241-247: exactly "OK" -> status OK, translation = refined, attempts + 1
    let qa1 : QASlot := ⟨some "OK", some refined, attempts + 1⟩
    { qa := qa1, refinedSlot := block, skipped := false, trace := [qa1], log := ["OK"] }
  else
    -- lines 248-253: corrected = qa_out.strip(); attempts += 1
    let corrected := pyStrip reply1
    let a1 := attempts + 1
    if corrected = refined then
      -- lines 256-260: corrected == refined -> status OK (log records OK_identical)
      let qa1 : QASlot := ⟨some "OK", some refined, a1⟩
      { qa := qa1, refinedSlot := block, skipped := false, trace := [qa1],
        log := ["OK_identical"] }
    else
      -- lines 261-273: status FIXED, translation = corrected, and the
      -- correction is pushed into the refined cache (refined = corrected,
      -- attempts = block.get("attempts", 0) + 1, google = block.get("google", ""))
      let qaFixed : QASlot := ⟨some "FIXED", some corrected, a1⟩
      let block1 : RefinedSlot :=
        { google := some (block.google.getD ""), refined := some corrected,
          attempts := block.attempts + 1, qaStatus := block.qaStatus }
      if retryOnFail ∧ a1 < maxAttempts then
        -- lines 276-299: one retry validation against the corrected text
        if okReply reply2 then
          let qa2 : QASlot := ⟨some "OK", some corrected, a1 + 1⟩
          { qa := qa2, refinedSlot := block1, skipped := false,
            trace := [qaFixed, qa2], log := ["FIXED", "OK_after_retry"] }
        else
          let qa2 : QASlot := ⟨some "FAIL", some (pyStrip reply2), a1 + 1⟩
          { qa := qa2, refinedSlot := block1, skipped := false,
            trace := [qaFixed, qa2], log := ["FIXED", "FAIL"] }
      else
        -- lines 300-305: retry disabled or attempts exhausted; FAIL is set
        -- only under attempts >= max_attempts, else the slot stays FIXED
        if maxAttempts ≤ a1 then
          let qa2 : QASlot := ⟨some "FAIL", some corrected, a1⟩
          { qa := qa2, refinedSlot := block1, skipped := false,
            trace := [qaFixed, qa2], log := ["FIXED", "FAIL"] }
        else
          { qa := qaFixed, refinedSlot := block1, skipped := false,
            trace := [qaFixed], log := ["FIXED"] }

/-- The statuses the bounded-retry claim counts as settled:
OK, OK_IDENTICAL or FAIL. -/
def settledStatus (s : Option String) : Bool :=
  s == some "OK" || s == some "OK_IDENTICAL" || s == some "FAIL"

/-- Input describing one (key, lang) slot the QA stage visits, with the
replies its llama_call invocations produce. -/
structure QASlotInput where
  key : String
  lang : String
  qa0 : QASlot
  block : RefinedSlot
  reply1 : String
  reply2 : String
deriving DecidableEq, Repr

/-- process_qa_file (lines 215-309) over its visited slots.  The Python
loop ranges over the (key, lang) pairs of the refined cache (each pair at
most once, as keys of nested dicts) and the body for one pair reads and
writes only that pair's QA-cache and Refined-cache slots, so the stage is
the independent per-slot step mapped over the slot list. -/
def process_qa_file (slots : List QASlotInput) (retryOnFail : Bool)
    (maxAttempts : Nat) : List (QASlotInput × QAStepResult) :=
  slots.map (fun s => (s, qaStep s.qa0 s.block s.reply1 s.reply2 retryOnFail maxAttempts))

/-- save_edit of the manual-review window (lines 470-504) for one
(key, lang) slot: rejects an empty corrected text (the early-return of
lines 476-478, after the Text-widget content was stripped), otherwise
sets the QA slot to status OK_MANUAL / translation newText /
attempts + 1 and overwrites only the refined field of the Refined-cache
slot. -/
def save_edit (qa0 : QASlot) (block : RefinedSlot) (newText : String) :
    Option (QASlot × RefinedSlot) :=
  if newText = "" then none
  else some (⟨some "OK_MANUAL", some newText, qa0.attempts + 1⟩,
    { block with refined := some newText })

/-- load_json (lines 77-81): if the file exists it is parsed by
json.load, whose failure on invalid JSON propagates (no try/except);
if it does not exist the empty mapping is returned.  readFile models the
file system (none = absent), parseJson models json.load (none = invalid
JSON, raising). -/
def load_json {α : Type} (readFile : String → Option String)
    (parseJson : String → Option (List (String × α))) (path : String) :
    Except String (List (String × α)) :=
  match readFile path with
  | some content =>
    match parseJson content with
    | some m => Except.ok m
    | none => Except.error ("json decode error: " ++ path)
  | none => Except.ok []

/-- The value stored for a Google-cache slot from the outcome of the
translate future (lines 165-170): the translated text, or the
error-tagged string "[Google ERROR: e]" when the request raised e. -/
def googleResultText (reply : Except String String) : String :=
  match reply with
  | Except.ok t => t
  | Except.error e => "[Google ERROR: " ++ e ++ "]"

/-- The per-(key, lang) decision of process_google_file (lines 159-170):
a slot whose cached value is present and non-empty (Python truthiness of
the string at line 160) is skipped, keeping its value and not invoking
the provider; otherwise the provider outcome is recorded.  The Bool
reports whether the provider was invoked for the slot. -/
def googleSlotStep (cached : Option String) (reply : Except String String) :
    String × Bool :=
  match cached with
  | some s => if s ≠ "" then (s, false) else (googleResultText reply, true)
  | none => (googleResultText reply, true)

/-- One translation task of process_google_file: a (key, lang) pair with
its original text. -/
structure GTask where
  key : String
  lang : String
  original : String
deriving DecidableEq, Repr

/-- process_google_file (lines 150-175) over its non-cached tasks: every
task of the batch gets a result recorded (an exception is turned into the
error-tagged string by googleResultText, never aborting the loop of
lines 165-172). -/
def process_google_file (tasks : List GTask)
    (provider : GTask → Except String String) : List (GTask × String) :=
  tasks.map (fun t => (t, googleResultText (provider t)))

/-- The text stored for a Refined-cache slot from the outcome of the
llama_call (lines 196-199): the reply, or the error-tagged string when
the call raised. -/
def refineResultText (reply : Except String String) : String :=
  match reply with
  | Except.ok t => t
  | Except.error e => "[Llama refine ERROR: " ++ e ++ "]"

/-- The per-(key, lang) body of process_refine_file (lines 188-207):
skip when the refined cache already holds a truthy (present, non-empty)
"refined" field for the slot (line 192), keeping the slot untouched and
not invoking the provider; otherwise overwrite google / refined /
attempts (old + 1, default 0) / qa_status = "PENDING".  The Bool reports
whether the provider was invoked. -/
def refineSlotStep (cached : Option RefinedSlot) (googleTrans : String)
    (reply : Except String String) : RefinedSlot × Bool :=
  match cached with
  | some r =>
    if r.refined.getD "" ≠ "" then (r, false)
    else (⟨some googleTrans, some (refineResultText reply), r.attempts + 1,
      some "PENDING"⟩, true)
  | none => (⟨some googleTrans, some (refineResultText reply), 1, some "PENDING"⟩, true)

/-- One (key, lang) record of the QA cache as export_final reads it. -/
structure ExportSlot where
  key : String
  lang : String
  status : Option String
  translation : Option String
deriving DecidableEq, Repr

/-- The text export_final stores for a slot (lines 322-328): both the
branch for status in ("OK", "FIXED") and the branch for every other
status store info.get("translation") or "" (a missing or empty
translation becomes the empty string). -/
def exportText (status : Option String) (translation : Option String) : String :=
  let t := translation.getD ""
  if status = some "OK" ∨ status = some "FIXED" then t else t

/-- export_final (lines 315-334) as the per-language final mapping it
writes: records whose lang key is the literal "original" are skipped
(line 320), every other record of the QA cache is included under its
(lang, key) with exportText.  The function only reads the QA cache. -/
def export_final (slots : List ExportSlot) : String → String → Option String :=
  fun lang key =>
    ((slots.filter (fun s => s.lang ≠ "original")).find?
      (fun s => s.lang == lang && s.key == key)).map
      (fun s => exportText s.status s.translation)

/-- C2 counterexample: a validation reply that is not the token "OK"
(okReply "hola" = false) but whose stripped text equals the refined text
"hola" leaves status "OK" in the QA cache, not "OK_IDENTICAL"; the
OK_IDENTICAL distinction only reaches the audit log. -/
theorem qa_identical_not_marked_ok_identical :
    okReply "hola" = false ∧ pyStrip "hola" = "hola" ∧
    (qaStep emptyQASlot ⟨some "g", some "hola", 1, some "PENDING"⟩ "hola" "x" true 3).qa.status
      = some "OK" ∧
    (qaStep emptyQASlot ⟨some "g", some "hola", 1, some "PENDING"⟩ "hola" "x" true 3).qa.status
      ≠ some "OK_IDENTICAL" := by decide

/-- C2 amended: when the validation reply is not the literal "OK" but the
proposed correction equals the refined text of the slot, the status
stored in the QA cache is "OK" (with translation = refined text and
attempts incremented); only the audit-log record carries the
"OK_identical" marker. -/
theorem qa_identical_marks_ok (qa0 : QASlot) (block : RefinedSlot)
    (reply1 reply2 : String) (retry : Bool) (maxA : Nat)
    (hskip : ¬(qa0.status = some "OK" ∧ qa0.translation = some (block.refined.getD "")))
    (hok : okReply reply1 = false)
    (hid : pyStrip reply1 = block.refined.getD "") :
    (qaStep qa0 block reply1 reply2 retry maxA).qa.status = some "OK" ∧
    (qaStep qa0 block reply1 reply2 retry maxA).qa.translation
      = some (block.refined.getD "") ∧
    (qaStep qa0 block reply1 reply2 retry maxA).qa.attempts = qa0.attempts + 1 ∧
    (qaStep qa0 block reply1 reply2 retry maxA).log = ["OK_identical"] := by
  simp [qaStep, hskip, hok, hid]

/-- C2 amended, witness at a concrete slot. -/
theorem qa_identical_marks_ok_witness :
    (qaStep ⟨none, none, 0⟩ ⟨some "g", some "xy", 0, none⟩ " xy " "z" false 3).qa.status
      = some "OK" ∧
    (qaStep ⟨none, none, 0⟩ ⟨some "g", some "xy", 0, none⟩ " xy " "z" false 3).qa.translation
      = some ((RefinedSlot.mk (some "g") (some "xy") 0 none).refined.getD "") ∧
    (qaStep ⟨none, none, 0⟩ ⟨some "g", some "xy", 0, none⟩ " xy " "z" false 3).qa.attempts
      = (QASlot.mk none none 0).attempts + 1 ∧
    (qaStep ⟨none, none, 0⟩ ⟨some "g", some "xy", 0, none⟩ " xy " "z" false 3).log
      = ["OK_identical"] :=
  qa_identical_marks_ok ⟨none, none, 0⟩ ⟨some "g", some "xy", 0, none⟩ " xy " "z" false 3
    (by decide) (by decide) (by decide)

/-- C3 counterexample: a fresh slot takes the FIXED path ("fix" is not
the OK token and differs from the refined text "hola") with retries
disabled and attempts not exhausted (1 < 3): the stored status at the end
of processing is "FIXED", not "FAIL". -/
theorem qa_fixed_no_retry_not_fail :
    okReply "fix" = false ∧ pyStrip "fix" ≠ "hola" ∧
    (qaStep emptyQASlot ⟨some "g", some "hola", 1, some "PENDING"⟩ "fix" "x" false 3).qa.status
      = some "FIXED" ∧
    (qaStep emptyQASlot ⟨some "g", some "hola", 1, some "PENDING"⟩ "fix" "x" false 3).qa.status
      ≠ some "FAIL" ∧
    (qaStep emptyQASlot ⟨some "g", some "hola", 1, some "PENDING"⟩ "fix" "x" false 3).qa.attempts
      = 1 := by decide

/-- C3 amended: on the FIXED path with no retry performed (retries
disabled, or attempts exhausted), the final status is "FAIL" exactly when
the incremented attempts counter has reached maxAttempts; otherwise
(retries disabled and attempts below the maximum) the slot remains
"FIXED".  In both cases the stored translation is the proposed
correction. -/
theorem qa_fixed_terminal_status (qa0 : QASlot) (block : RefinedSlot)
    (reply1 reply2 : String) (retry : Bool) (maxA : Nat)
    (hskip : ¬(qa0.status = some "OK" ∧ qa0.translation = some (block.refined.getD "")))
    (hok : okReply reply1 = false)
    (hdiff : pyStrip reply1 ≠ block.refined.getD "")
    (hnoretry : retry = false ∨ maxA ≤ qa0.attempts + 1) :
    (qaStep qa0 block reply1 reply2 retry maxA).qa.status
      = (if maxA ≤ qa0.attempts + 1 then some "FAIL" else some "FIXED") ∧
    (qaStep qa0 block reply1 reply2 retry maxA).qa.translation
      = some (pyStrip reply1) := by
  have hcond : ¬(retry = true ∧ qa0.attempts + 1 < maxA) := by
    rcases hnoretry with h | h
    · rintro ⟨h1, _⟩; rw [h] at h1; exact Bool.false_ne_true h1
    · rintro ⟨_, h2⟩; omega
  simp only [qaStep]
  rw [if_neg hskip]
  simp only [hok, Bool.false_eq_true, if_false, if_neg hdiff, if_neg hcond]
  split_ifs <;> simp

/-- C3 amended, witness: retries disabled, attempts already at 2, so the
incremented counter reaches 3 = maxAttempts and the slot is marked FAIL
with the correction as translation. -/
theorem qa_fixed_terminal_status_witness :
    (qaStep ⟨some "FAIL", some "old", 2⟩ ⟨some "g", some "hola", 2, none⟩ "fix" "x" false 3).qa.status
      = (if 3 ≤ (QASlot.mk (some "FAIL") (some "old") 2).attempts + 1 then some "FAIL"
         else some "FIXED") ∧
    (qaStep ⟨some "FAIL", some "old", 2⟩ ⟨some "g", some "hola", 2, none⟩ "fix" "x" false 3).qa.translation
      = some (pyStrip "fix") :=
  qa_fixed_terminal_status ⟨some "FAIL", some "old", 2⟩ ⟨some "g", some "hola", 2, none⟩
    "fix" "x" false 3 (by decide) (by decide) (by decide) (Or.inl rfl)

/-- C5 counterexample: a cache file that exists but holds invalid JSON
(the parser rejects its content) makes load_json propagate the decode
error instead of returning the empty mapping. -/
theorem load_json_corrupt_raises :
    load_json (fun _ => some "not json") (fun _ => (none : Option (List (String × Nat))))
      "cache/qa.json" = Except.error "json decode error: cache/qa.json" ∧
    load_json (fun _ => some "not json") (fun _ => (none : Option (List (String × Nat))))
      "cache/qa.json" ≠ Except.ok [] := by
  refine ⟨rfl, fun h => ?_⟩
  simp [load_json] at h

/-- C5 amended: load_json returns the empty mapping when the file is
absent and never fails there, but when the file exists and its content is
invalid JSON the json.load failure propagates (the call raises) rather
than being treated as an absent file. -/
theorem load_json_missing_ok_corrupt_error {α : Type} (readFile : String → Option String)
    (parseJson : String → Option (List (String × α))) (path : String) :
    (readFile path = none → load_json readFile parseJson path = Except.ok []) ∧
    (∀ c, readFile path = some c → parseJson c = none →
      load_json readFile parseJson path = Except.error ("json decode error: " ++ path)) := by
  constructor
  · intro h; simp [load_json, h]
  · intro c hc hp; simp [load_json, hc, hp]

/-- C5 amended, witness: a missing file loads as the empty mapping. -/
theorem load_json_missing_ok_corrupt_error_witness :
    load_json (fun _ => (none : Option String))
      (fun _ => (none : Option (List (String × Nat)))) "cache/google.json" = Except.ok [] :=
  (load_json_missing_ok_corrupt_error (fun _ => none) (fun _ => none) "cache/google.json").1 rfl

/-- C7: re-running the Translation Stage on a slot whose Google-cache
value is non-empty keeps the value and does not invoke the provider, and
re-running the Refinement Stage on a slot whose refined field is present
and non-empty keeps the whole slot and does not invoke the provider. -/
theorem stages_skip_cached_slots (s : String) (reply1 reply2 : Except String String)
    (r : RefinedSlot) (t g : String)
    (hs : s ≠ "") (ht : r.refined = some t) (htne : t ≠ "") :
    googleSlotStep (some s) reply1 = (s, false) ∧
    refineSlotStep (some r) g reply2 = (r, false) := by
  constructor
  · simp [googleSlotStep, hs]
  · simp [refineSlotStep, ht, htne]

/-- C7, witness at concrete cached slots. -/
theorem stages_skip_cached_slots_witness :
    googleSlotStep (some "hola") (Except.error "net down") = ("hola", false) ∧
    refineSlotStep (some ⟨some "hola", some "hola!", 1, some "PENDING"⟩) "hola"
      (Except.error "net down") = (⟨some "hola", some "hola!", 1, some "PENDING"⟩, false) :=
  stages_skip_cached_slots "hola" (Except.error "net down") (Except.error "net down")
    ⟨some "hola", some "hola!", 1, some "PENDING"⟩ "hola!" "hola"
    (by decide) rfl (by decide)

/-- C1 counterexample: starting from the empty slot, two QA runs with
maxAttempts = 3 and retries enabled (replies shown in the equations)
reach the recorded state FAIL / attempts = 3, which the run-start skip
guard does not skip; the next run over that reachable state records the
state FIXED / attempts = 4 — an unsettled status with attempts above 3 —
before settling, and ends with attempts = 4. -/
theorem qa_attempts_exceed_bound_reachable :
    (qaStep emptyQASlot ⟨some "g", some "hola", 1, some "PENDING"⟩ "c1" "c2" true 3).qa
      = ⟨some "FAIL", some "c2", 2⟩ ∧
    (qaStep emptyQASlot ⟨some "g", some "hola", 1, some "PENDING"⟩ "c1" "c2" true 3).refinedSlot
      = ⟨some "g", some "c1", 2, some "PENDING"⟩ ∧
    (qaStep ⟨some "FAIL", some "c2", 2⟩ ⟨some "g", some "c1", 2, some "PENDING"⟩ "c3" "zz" true 3).qa
      = ⟨some "FAIL", some "c3", 3⟩ ∧
    (qaStep ⟨some "FAIL", some "c2", 2⟩ ⟨some "g", some "c1", 2, some "PENDING"⟩ "c3" "zz" true 3).refinedSlot
      = ⟨some "g", some "c3", 3, some "PENDING"⟩ ∧
    (⟨some "FIXED", some "c4", 4⟩ : QASlot) ∈
      (qaStep ⟨some "FAIL", some "c3", 3⟩ ⟨some "g", some "c3", 3, some "PENDING"⟩ "c4" "zz" true 3).trace ∧
    settledStatus (some "FIXED") = false ∧
    (qaStep ⟨some "FAIL", some "c3", 3⟩ ⟨some "g", some "c3", 3, some "PENDING"⟩ "c4" "zz" true 3).qa.attempts
      = 4 := by decide

/-- C1 amended: with maxAttempts = 3 the bound does hold for every slot
whose recorded attempts at the start of the run are at most 2 — which
covers every slot the automatic stage itself leaves unsettled, and in
particular a slot starting at attempts = 0 — but not for every reachable
state: a slot can settle at FAIL with attempts = 3, and reprocessing it
records attempts = 4.  For a start at attempts ≤ 2, every state the run
records for the slot, and the final state, has attempts ≤ 3. -/
theorem qa_attempts_bounded_from_low_start (qa0 : QASlot) (block : RefinedSlot)
    (reply1 reply2 : String) (retry : Bool) (h : qa0.attempts ≤ 2) :
    (∀ s ∈ (qaStep qa0 block reply1 reply2 retry 3).trace, s.attempts ≤ 3) ∧
    (qaStep qa0 block reply1 reply2 retry 3).qa.attempts ≤ 3 := by
  simp only [qaStep]
  split_ifs <;> simp_all <;> omega

/-- C1 amended, witness: a fresh slot whose correction is rejected again
on retry stays within the attempts bound. -/
theorem qa_attempts_bounded_from_low_start_witness :
    (∀ s ∈ (qaStep ⟨none, none, 0⟩ ⟨some "g", some "hola", 1, some "PENDING"⟩ "c1" "c2" true 3).trace,
      s.attempts ≤ 3) ∧
    (qaStep ⟨none, none, 0⟩ ⟨some "g", some "hola", 1, some "PENDING"⟩ "c1" "c2" true 3).qa.attempts ≤ 3 :=
  qa_attempts_bounded_from_low_start ⟨none, none, 0⟩ ⟨some "g", some "hola", 1, some "PENDING"⟩
    "c1" "c2" true (by decide)

/-- C4 counterexample: manual override on a failed slot stores
OK_MANUAL / translation "manual" and refined text "manual"; a subsequent
automatic QA run with retries disabled over the unchanged refined text,
with a validator reply "other", replaces the stored translation by
"other" and the status by FIXED — the OK_MANUAL slot is not preserved. -/
theorem ok_manual_overwritten_by_qa_rerun :
    save_edit ⟨some "FAIL", some "bad", 0⟩ ⟨some "g", some "bad", 1, some "PENDING"⟩ "manual"
      = some (⟨some "OK_MANUAL", some "manual", 1⟩, ⟨some "g", some "manual", 1, some "PENDING"⟩) ∧
    (qaStep ⟨some "OK_MANUAL", some "manual", 1⟩ ⟨some "g", some "manual", 1, some "PENDING"⟩
      "other" "y" false 3).qa.translation = some "other" ∧
    (qaStep ⟨some "OK_MANUAL", some "manual", 1⟩ ⟨some "g", some "manual", 1, some "PENDING"⟩
      "other" "y" false 3).qa.translation ≠ some "manual" ∧
    (qaStep ⟨some "OK_MANUAL", some "manual", 1⟩ ⟨some "g", some "manual", 1, some "PENDING"⟩
      "other" "y" false 3).qa.status ≠ some "OK_MANUAL" := by decide

/-- C4 amended: the run-start skip guard only matches status "OK", so an
OK_MANUAL slot is reprocessed by every automatic QA run (retries disabled
or not): the resulting status is never OK_MANUAL again, and the stored
translation survives only when the validator replies with the literal
"OK" (or echoes the refined text), in which case the status is
overwritten to "OK" with the refined (here: manual) text kept. -/
theorem ok_manual_reprocessed (qa0 : QASlot) (block : RefinedSlot)
    (reply1 reply2 : String) (retry : Bool) (maxA : Nat)
    (hman : qa0.status = some "OK_MANUAL") :
    (qaStep qa0 block reply1 reply2 retry maxA).skipped = false ∧
    (qaStep qa0 block reply1 reply2 retry maxA).qa.status ≠ some "OK_MANUAL" ∧
    (okReply reply1 = true →
      (qaStep qa0 block reply1 reply2 retry maxA).qa
        = ⟨some "OK", some (block.refined.getD ""), qa0.attempts + 1⟩) := by
  simp only [qaStep]
  split_ifs <;> simp_all

/-- C4 amended, witness: the OK_MANUAL slot built by save_edit is
reprocessed, and a reply of "OK" keeps its translation while moving the
status to "OK". -/
theorem ok_manual_reprocessed_witness :
    (qaStep ⟨some "OK_MANUAL", some "manual", 1⟩ ⟨some "g", some "manual", 1, some "PENDING"⟩
      "OK" "y" false 3).skipped = false ∧
    (qaStep ⟨some "OK_MANUAL", some "manual", 1⟩ ⟨some "g", some "manual", 1, some "PENDING"⟩
      "OK" "y" false 3).qa.status ≠ some "OK_MANUAL" ∧
    (okReply "OK" = true →
      (qaStep ⟨some "OK_MANUAL", some "manual", 1⟩ ⟨some "g", some "manual", 1, some "PENDING"⟩
        "OK" "y" false 3).qa
        = ⟨some "OK", some ((RefinedSlot.mk (some "g") (some "manual") 1 (some "PENDING")).refined.getD ""),
            (QASlot.mk (some "OK_MANUAL") (some "manual") 1).attempts + 1⟩) :=
  ok_manual_reprocessed ⟨some "OK_MANUAL", some "manual", 1⟩
    ⟨some "g", some "manual", 1, some "PENDING"⟩ "OK" "y" false 3 rfl

/-- C6: a slot of the QA stage whose validation reply is a proposed
correction different from the refined text pushes the correction into the
Refined cache: after the stage completes (each (key, lang) pair is
visited once and its body touches only that pair's slots), the refined
field of the slot equals the corrected text, its google field and
attempts are rewritten as on lines 271-273, and the QA-cache attempts
counter was incremented. -/
theorem qa_fixed_propagates_to_refined (slots : List QASlotInput) (retry : Bool)
    (maxA : Nat) (s : QASlotInput) (res : QAStepResult)
    (hmem : (s, res) ∈ process_qa_file slots retry maxA)
    (hskip : ¬(s.qa0.status = some "OK" ∧ s.qa0.translation = some (s.block.refined.getD "")))
    (hok : okReply s.reply1 = false)
    (hdiff : pyStrip s.reply1 ≠ s.block.refined.getD "") :
    res.refinedSlot.refined = some (pyStrip s.reply1) ∧
    res.refinedSlot.google = some (s.block.google.getD "") ∧
    res.refinedSlot.attempts = s.block.attempts + 1 ∧
    s.qa0.attempts + 1 ≤ res.qa.attempts := by
  simp only [process_qa_file, List.mem_map] at hmem
  obtain ⟨a, _, heq⟩ := hmem
  obtain ⟨rfl, rfl⟩ : a = s ∧ qaStep a.qa0 a.block a.reply1 a.reply2 retry maxA = res := by
    exact ⟨congrArg Prod.fst heq, congrArg Prod.snd heq⟩
  simp only [qaStep]
  split_ifs <;> simp_all

/-- C6, witness: a concrete one-slot stage whose reply "fix" differs from
the refined text "hola". -/
theorem qa_fixed_propagates_to_refined_witness :
    ((process_qa_file [⟨"greet", "es", ⟨none, none, 0⟩, ⟨some "g", some "hola", 1, some "PENDING"⟩,
        "fix", "zz"⟩] true 3).head?.map (fun p => p.2.refinedSlot.refined))
      = some (some (pyStrip "fix")) ∧
    ((process_qa_file [⟨"greet", "es", ⟨none, none, 0⟩, ⟨some "g", some "hola", 1, some "PENDING"⟩,
        "fix", "zz"⟩] true 3).head?.map (fun p => p.2.refinedSlot.attempts)) = some 2 := by
  have h := qa_fixed_propagates_to_refined
    [⟨"greet", "es", ⟨none, none, 0⟩, ⟨some "g", some "hola", 1, some "PENDING"⟩, "fix", "zz"⟩]
    true 3
    ⟨"greet", "es", ⟨none, none, 0⟩, ⟨some "g", some "hola", 1, some "PENDING"⟩, "fix", "zz"⟩
    (qaStep ⟨none, none, 0⟩ ⟨some "g", some "hola", 1, some "PENDING"⟩ "fix" "zz" true 3)
    (by simp [process_qa_file]) (by decide) (by decide) (by decide)
  refine ⟨?_, ?_⟩
  · simp [process_qa_file, h.1]
  · simp [process_qa_file, h.2.2.1]

/-- Helper: in a list of export slots with pairwise-distinct (key, lang)
pairs — the shape of the QA cache, whose (key, lang) pairs are nested
dict keys — find? with a slot's own (lang, key) returns that slot. -/
theorem find_first_of_pairwise (l : List ExportSlot) (s : ExportSlot)
    (hnd : l.Pairwise (fun a b => ¬(a.key = b.key ∧ a.lang = b.lang)))
    (hmem : s ∈ l) :
    l.find? (fun t => t.lang == s.lang && t.key == s.key) = some s := by
  induction l with
  | nil => cases hmem
  | cons a tl ih =>
    rcases List.mem_cons.mp hmem with rfl | hmem2
    · exact List.find?_cons_of_pos _ (by simp)
    · have hna := (List.pairwise_cons.mp hnd).1 s hmem2
      have hfalse : ¬((a.lang == s.lang && a.key == s.key) = true) := by
        intro h
        simp only [Bool.and_eq_true, beq_iff_eq] at h
        exact hna ⟨h.2, h.1⟩
      rw [List.find?_cons_of_neg (p := fun t => t.lang == s.lang && t.key == s.key) tl hfalse]
      exact ih (List.pairwise_cons.mp hnd).2 hmem2

/-- C8: the Export Stage includes every (key, lang) record of the QA
cache — both branches of lines 324-328 store the same value — in that
language's final mapping, using the slot's translation field with a
missing or empty translation exported as the empty string; this covers
the statuses OK, OK_IDENTICAL, FIXED, OK_MANUAL and also FAIL.  The
model export_final is a pure reader of the QA cache (the source function
saves only the final per-language files, never a cache). -/
theorem export_includes_every_slot (slots : List ExportSlot) (s : ExportSlot)
    (hnd : slots.Pairwise (fun a b => ¬(a.key = b.key ∧ a.lang = b.lang)))
    (hmem : s ∈ slots) (hlang : s.lang ≠ "original") :
    export_final slots s.lang s.key = some (s.translation.getD "") := by
  unfold export_final
  have hmem2 : s ∈ slots.filter (fun t => t.lang ≠ "original") := by
    simp [List.mem_filter, hmem, hlang]
  have hnd2 : (slots.filter (fun t => t.lang ≠ "original")).Pairwise
      (fun a b => ¬(a.key = b.key ∧ a.lang = b.lang)) :=
    hnd.sublist (List.filter_sublist _)
  rw [find_first_of_pairwise _ _ hnd2 hmem2]
  simp [exportText]

/-- C8, witness: a FAIL slot without a stored translation is exported as
the empty string next to an OK slot. -/
theorem export_includes_every_slot_witness :
    export_final [⟨"greet", "es", some "FAIL", none⟩, ⟨"bye", "es", some "OK", some "adios"⟩]
      "es" "greet" = some ((none : Option String).getD "") :=
  export_includes_every_slot
    [⟨"greet", "es", some "FAIL", none⟩, ⟨"bye", "es", some "OK", some "adios"⟩]
    ⟨"greet", "es", some "FAIL", none⟩ (by simp) (by simp) (by simp)

/-- C9: in the Translation Stage, a task whose provider request raises an
error e gets the explicit error-tagged string "[Google ERROR: e]"
recorded as its value instead of aborting the batch, and every task of
the batch gets its result recorded (the result list maps the task list
one for one). -/
theorem google_error_recorded_batch_continues (tasks : List GTask)
    (provider : GTask → Except String String) :
    (process_google_file tasks provider).length = tasks.length ∧
    (∀ t ∈ tasks, (t, googleResultText (provider t)) ∈ process_google_file tasks provider) ∧
    (∀ t ∈ tasks, ∀ e, provider t = Except.error e →
      (t, "[Google ERROR: " ++ e ++ "]") ∈ process_google_file tasks provider) := by
  refine ⟨by simp [process_google_file], ?_, ?_⟩
  · intro t ht
    simp only [process_google_file, List.mem_map]
    exact ⟨t, ht, rfl⟩
  · intro t ht e he
    simp only [process_google_file, List.mem_map]
    exact ⟨t, ht, by simp [googleResultText, he]⟩

/-- C9, witness: a two-task batch whose provider always raises records
both tasks, the first with the tagged error string. -/
theorem google_error_recorded_batch_continues_witness :
    (process_google_file [⟨"greet", "es", "Hello"⟩, ⟨"bye", "es", "Bye"⟩]
        (fun _ => Except.error "timeout")).length
      = ([⟨"greet", "es", "Hello"⟩, ⟨"bye", "es", "Bye"⟩] : List GTask).length ∧
    (⟨"greet", "es", "Hello"⟩, "[Google ERROR: " ++ "timeout" ++ "]") ∈
      process_google_file [⟨"greet", "es", "Hello"⟩, ⟨"bye", "es", "Bye"⟩]
        (fun _ => Except.error "timeout") :=
  ⟨(google_error_recorded_batch_continues _ _).1,
    (google_error_recorded_batch_continues _ _).2.2 ⟨"greet", "es", "Hello"⟩ (by simp)
      "timeout" rfl⟩

/-- C10 counterexample: on the retry path, first reply "x" and second
reply " x" are different strings, yet the QA cache ends holding the
trimmed second reply "x" and the Refined cache the first correction "x":
the two replies differ but the two caches hold the same text. -/
theorem qa_retry_replies_differ_same_text :
    ("x" : String) ≠ " x" ∧
    okReply "x" = false ∧ okReply " x" = false ∧
    (qaStep emptyQASlot ⟨some "g", some "hola", 1, some "PENDING"⟩ "x" " x" true 3).qa.translation
      = some "x" ∧
    (qaStep emptyQASlot ⟨some "g", some "hola", 1, some "PENDING"⟩ "x" " x" true 3).refinedSlot.refined
      = some "x" := by decide

/-- C10 amended: on the FIXED path with retries enabled, attempts below
the maximum and a non-"OK" retry reply, the QA cache ends holding the
trimmed second reply and the Refined cache the first proposed correction
(the trimmed first reply); hence whenever the two replies differ after
trimming, the two caches hold different texts for the slot. -/
theorem qa_retry_divergence_trimmed (qa0 : QASlot) (block : RefinedSlot)
    (reply1 reply2 : String) (maxA : Nat)
    (hskip : ¬(qa0.status = some "OK" ∧ qa0.translation = some (block.refined.getD "")))
    (hok1 : okReply reply1 = false)
    (hdiff : pyStrip reply1 ≠ block.refined.getD "")
    (hlt : qa0.attempts + 1 < maxA)
    (hok2 : okReply reply2 = false) :
    (qaStep qa0 block reply1 reply2 true maxA).qa.translation = some (pyStrip reply2) ∧
    (qaStep qa0 block reply1 reply2 true maxA).refinedSlot.refined = some (pyStrip reply1) ∧
    (pyStrip reply1 ≠ pyStrip reply2 →
      (qaStep qa0 block reply1 reply2 true maxA).qa.translation ≠
        (qaStep qa0 block reply1 reply2 true maxA).refinedSlot.refined) := by
  simp only [qaStep]
  split_ifs <;> simp_all
  intro h12 hc
  exact h12 hc.symm

/-- C10 amended, witness: distinct trimmed replies leave distinct texts
in the two caches. -/
theorem qa_retry_divergence_trimmed_witness :
    (qaStep ⟨none, none, 0⟩ ⟨some "g", some "hola", 1, some "PENDING"⟩ "fix1" "fix2" true 3).qa.translation
      = some (pyStrip "fix2") ∧
    (qaStep ⟨none, none, 0⟩ ⟨some "g", some "hola", 1, some "PENDING"⟩ "fix1" "fix2" true 3).refinedSlot.refined
      = some (pyStrip "fix1") ∧
    (pyStrip "fix1" ≠ pyStrip "fix2" →
      (qaStep ⟨none, none, 0⟩ ⟨some "g", some "hola", 1, some "PENDING"⟩ "fix1" "fix2" true 3).qa.translation ≠
        (qaStep ⟨none, none, 0⟩ ⟨some "g", some "hola", 1, some "PENDING"⟩ "fix1" "fix2" true 3).refinedSlot.refined) :=
  qa_retry_divergence_trimmed ⟨none, none, 0⟩ ⟨some "g", some "hola", 1, some "PENDING"⟩
    "fix1" "fix2" 3 (by decide) (by decide) (by decide) (by decide) (by decide)

end RPGTranslator
